import Mathlib

/-
Shallow embedding of the arfid-ai-app backends:
  - src/app.py               (Flask + Celery + Redis revision)      -> namespace AppPy
  - src/api/function_app.py  (Azure Functions revision)             -> namespace FuncApp
  - src/scripts/upload-pdfs-to-openai.py (offline upload script)

Vendor SDK calls (OpenAI client, Celery broker) are modelled by an oracle
structure `Vendor`; each call either returns a value or raises an exception
(`Except String`).  Every vendor call that completes is recorded in a trace
of `SdkOp` values carried in the server state `St`, which also holds the
process-wide environment variable THREAD_ID, the per-caller Flask session
values, and the Redis key/value store.
-/

/-- JSON values as decoded by `request.get_json()`.  JSON numbers are
modelled as integers; no claim depends on float payloads. -/
inductive JsonVal where
  | null : JsonVal
  | bool : Bool → JsonVal
  | num : Int → JsonVal
  | str : String → JsonVal
  | arr : List JsonVal → JsonVal
  | obj : List (String × JsonVal) → JsonVal

/-- Python truthiness of a decoded JSON value: None, False, 0, "", [] and
\x7b\x7d are falsy, everything else truthy. -/
def truthy : JsonVal → Bool
  | .null => false
  | .bool b => b
  | .num n => n != 0
  | .str s => s != ""
  | .arr xs => !xs.isEmpty
  | .obj fs => !fs.isEmpty

mutual

/-- Python `repr` of a decoded JSON value (used inside f-strings for
containers).  Strings are quoted; containers are rendered recursively. -/
def pyReprOf : JsonVal → String
  | .null => "None"
  | .bool b => if b then "True" else "False"
  | .num n => toString n
  | .str s => "\x27" ++ s ++ "\x27"
  | .arr xs => "[" ++ pyReprList xs ++ "]"
  | .obj fs => "\x7b" ++ pyReprFields fs ++ "\x7d"

def pyReprList : List JsonVal → String
  | [] => ""
  | [x] => pyReprOf x
  | x :: xs => pyReprOf x ++ ", " ++ pyReprList xs

def pyReprFields : List (String × JsonVal) → String
  | [] => ""
  | [(k, x)] => "\x27" ++ k ++ "\x27: " ++ pyReprOf x
  | (k, x) :: fs => "\x27" ++ k ++ "\x27: " ++ pyReprOf x ++ ", " ++ pyReprFields fs

end

/-- Python `str` of a decoded JSON value, as used by f-string interpolation:
`str` of a string is the string itself, other values render like `repr`. -/
def pyStrOf : JsonVal → String
  | .str s => s
  | v => pyReprOf v

/-- A decoded JSON request body (`request.get_json()` result). -/
def Req := List (String × JsonVal)

/-- Python `dict.get(key)`: the stored value, or None when the key is
absent. -/
def Req.get (d : Req) (k : String) : JsonVal :=
  match List.lookup k d with
  | some v => v
  | none => .null

/-- A Flask HTTP response: status code plus JSON body. -/
structure HttpResponse where
  statusCode : Nat
  body : JsonVal

/-- An Azure Functions `func.HttpResponse`: plain string body plus status. -/
structure FuncResponse where
  body : String
  statusCode : Nat
deriving DecidableEq, Repr

/-- Flask `jsonify(*args, **kwargs)`: raises TypeError when positional and
keyword arguments are mixed; one positional argument becomes the body, two
or more become a JSON array, keyword arguments become a JSON object.  The
produced response has status 200 (callers override it by returning a
`(response, code)` tuple). -/
def jsonify (args : List JsonVal) (kwargs : List (String × JsonVal)) :
    Except String HttpResponse :=
  match args, kwargs with
  | _ :: _, _ :: _ =>
      .error "jsonify() behavior undefined when passed both args and kwargs"
  | [a], [] => .ok ⟨200, a⟩
  | [], kw => .ok ⟨200, .obj kw⟩
  | more, [] => .ok ⟨200, .arr more⟩

/-- Flask `(response, code)` tuple: override the status code. -/
def withCode (r : Except String HttpResponse) (c : Nat) :
    Except String HttpResponse :=
  r.map (fun resp => { resp with statusCode := c })

/-- A message object returned by `threads.messages.list`: its role and the
text values of its content parts. -/
structure Msg where
  role : String
  content : List String
deriving DecidableEq, Repr

/-- One completed vendor-SDK (or broker) operation, recorded in the trace.
Constructors for deleting or editing threads/messages exist so that the
append-only invariant is a statement, not a tautology of the op type. -/
inductive SdkOp where
  | threadCreate (tid : String) (initialMsgs : List (String × String))
  | messageCreate (tid : Option String) (role : String) (content : JsonVal)
  | messagesList (tid : Option String)
  | runCreateAndPoll (tid : Option String) (aid : String)
  | runCreate (tid : Option String) (rid : String)
  | runRetrieve (tid : Option String) (rid : String)
  | fileCreate
  | assistantCreate (vectorStoreIds : List String)
  | assistantDelete (aid : String)
  | taskEnqueue (tid : Option String) (aid : String)
  | threadDelete (tid : String)
  | messageDelete (tid : String) (mid : String)
  | messageUpdate (tid : String) (mid : String)

/-- Oracle for the vendor SDK and the Celery broker: the outcome of each
kind of external call.  `runsRetrieve i` is the status reported by the
i-th poll of the function_app loop. -/
structure Vendor where
  threadsCreate : List (String × String) → Except String String
  messagesCreate : Option String → String → JsonVal → Except String Unit
  messagesList : Option String → Except String (List Msg)
  runsCreateAndPoll : Option String → String → Except String String
  runsCreate : Option String → Except String String
  runsRetrieve : Nat → Except String String
  filesCreate : Except String String
  assistantsCreate : List String → Except String String
  assistantsDelete : String → Except String Unit
  applyAsync : Except String String

/-- Server-side state: the trace of completed external operations, the
process-wide environment variable THREAD_ID, the requesting caller's Flask
session entries, and the Redis store. -/
structure St where
  trace : List SdkOp
  envThreadId : Option String
  sessThreadId : Option String
  sessAssistantKey : Option String
  redis : List (String × String)

def St.init : St := ⟨[], none, none, none, []⟩

/-- Append one completed operation to the trace. -/
def St.emit (s : St) (op : SdkOp) : St :=
  { s with trace := s.trace ++ [op] }

/-- Redis GET (values decoded from bytes to strings). -/
def redisGet (store : List (String × String)) (k : String) : Option String :=
  List.lookup k store

/-- Redis SET. -/
def redisSet (store : List (String × String)) (k v : String) :
    List (String × String) :=
  (k, v) :: store

/-- Redis DELETE. -/
def redisDel (store : List (String × String)) (k : String) :
    List (String × String) :=
  store.filter (fun p => p.fst != k)

/-- Python `a or b` on optional strings (None and "" are falsy). -/
def pyOrStr (a b : Option String) : Option String :=
  match a with
  | some sa => if sa = "" then b else some sa
  | none => b

/-- Python falsiness of an optional string: None and "" are falsy. -/
def strFalsy : Option String → Bool
  | none => true
  | some s => s = ""

/-- The shared request-validation condition of both create_message
handlers: `(initial and not p1 and not p2 and not p3) or
(not initial and not update)`. -/
def inputsInvalid (initial p1 p2 p3 update : JsonVal) : Bool :=
  (truthy initial && !truthy p1 && !truthy p2 && !truthy p3) ||
    (!truthy initial && !truthy update)

/-
SHA-256 (hashlib.sha256(...).hexdigest() as used by setup_assistant_task),
implemented over Nat with explicit reduction modulo 2^32.
-/

/-- Truncate to a 32-bit word. -/
def w32 (n : Nat) : Nat := n % 4294967296

/-- 32-bit right rotation. -/
def rotr32 (x n : Nat) : Nat := w32 ((x >>> n) ||| (x <<< (32 - n)))

def shaCh (x y z : Nat) : Nat := (x &&& y) ^^^ ((x ^^^ 4294967295) &&& z)

def shaMaj (x y z : Nat) : Nat := (x &&& y) ^^^ (x &&& z) ^^^ (y &&& z)

def shaSig0 (x : Nat) : Nat := rotr32 x 2 ^^^ rotr32 x 13 ^^^ rotr32 x 22

def shaSig1 (x : Nat) : Nat := rotr32 x 6 ^^^ rotr32 x 11 ^^^ rotr32 x 25

def shaLit0 (x : Nat) : Nat := rotr32 x 7 ^^^ rotr32 x 18 ^^^ (x >>> 3)

def shaLit1 (x : Nat) : Nat := rotr32 x 17 ^^^ rotr32 x 19 ^^^ (x >>> 10)

/-- The 64 SHA-256 round constants (FIPS 180-4, written in decimal). -/
def sha256K : List Nat :=
  [1116352408, 1899447441, 3049323471, 3921009573,
   961987163, 1508970993, 2453635748, 2870763221, 3624381080,
   310598401, 607225278, 1426881987, 1925078388, 2162078206,
   2614888103, 3248222580, 3835390401, 4022224774, 264347078,
   604807628, 770255983, 1249150122, 1555081692, 1996064986,
   2554220882, 2821834349, 2952996808, 3210313671, 3336571891,
   3584528711, 113926993, 338241895, 666307205, 773529912,
   1294757372, 1396182291, 1695183700, 1986661051, 2177026350,
   2456956037, 2730485921, 2820302411, 3259730800, 3345764771,
   3516065817, 3600352804, 4094571909, 275423344, 430227734,
   506948616, 659060556, 883997877, 958139571, 1322822218,
   1537002063, 1747873779, 1955562222, 2024104815, 2227730452,
   2361852424, 2428436474, 2756734187, 3204031479, 3329325298]

/-- The initial SHA-256 hash state (FIPS 180-4, written in decimal). -/
def sha256H0 : List Nat :=
  [1779033703, 3144134277, 1013904242, 2773480762,
   1359893119, 2600822924, 528734635, 1541459225]

/-- Big-endian byte rendering of `n` on `k` bytes. -/
def bigEndianBytes (k n : Nat) : List Nat :=
  (List.range k).map (fun i => (n >>> (8 * (k - 1 - i))) % 256)

/-- SHA-256 padding: append 0x80, zeros up to 56 mod 64, then the bit
length on 8 big-endian bytes. -/
def sha256pad (msg : List Nat) : List Nat :=
  let zeros := (119 - (msg.length % 64)) % 64
  msg ++ [128] ++ List.replicate zeros 0 ++ bigEndianBytes 8 (8 * msg.length)

/-- Group bytes into big-endian 32-bit words. -/
def bytesToWords : List Nat → List Nat
  | b0 :: b1 :: b2 :: b3 :: rest =>
      ((b0 <<< 24) ||| (b1 <<< 16) ||| (b2 <<< 8) ||| b3) :: bytesToWords rest
  | _ => []

/-- Extend the 16-word message schedule by `n` further words. -/
def sha256extend (w : List Nat) : Nat → List Nat
  | 0 => w
  | n + 1 =>
      let L := w.length
      let next := w32 (shaLit1 (w.getD (L - 2) 0) + w.getD (L - 7) 0 +
        shaLit0 (w.getD (L - 15) 0) + w.getD (L - 16) 0)
      sha256extend (w ++ [next]) n

/-- One SHA-256 compression round on the 8-word working state. -/
def sha256round (st : List Nat) (ki wi : Nat) : List Nat :=
  let a := st.getD 0 0
  let b := st.getD 1 0
  let c := st.getD 2 0
  let d := st.getD 3 0
  let e := st.getD 4 0
  let f := st.getD 5 0
  let g := st.getD 6 0
  let h := st.getD 7 0
  let t1 := w32 (h + shaSig1 e + shaCh e f g + ki + wi)
  let t2 := w32 (shaSig0 a + shaMaj a b c)
  [w32 (t1 + t2), a, b, c, w32 (d + t1), e, f, g]

/-- Compress one 64-byte block into the hash state. -/
def sha256compress (h : List Nat) (block : List Nat) : List Nat :=
  let w := sha256extend (bytesToWords block) 48
  let st := (sha256K.zip w).foldl (fun st p => sha256round st p.fst p.snd) h
  (h.zip st).map (fun p => w32 (p.fst + p.snd))

/-- Fold `n` 64-byte blocks of `l` into the hash state. -/
def sha256blocks : List Nat → List Nat → Nat → List Nat
  | h, _, 0 => h
  | h, l, n + 1 => sha256blocks (sha256compress h (l.take 64)) (l.drop 64) n

/-- SHA-256 digest (as 8 words) of a byte list. -/
def sha256bytes (msg : List Nat) : List Nat :=
  let padded := sha256pad msg
  sha256blocks sha256H0 padded (padded.length / 64)

def hexChar (n : Nat) : Char :=
  if n < 10 then Char.ofNat (48 + n) else Char.ofNat (87 + n)

/-- Lowercase hex rendering of a 32-bit word. -/
def wordToHex (w : Nat) : String :=
  String.mk ((List.range 8).map (fun i => hexChar ((w >>> (4 * (7 - i))) % 16)))

/-- UTF-8 encoding of one character. -/
def utf8Bytes (c : Char) : List Nat :=
  let n := c.toNat
  if n < 128 then [n]
  else if n < 2048 then [192 + n / 64, 128 + n % 64]
  else if n < 65536 then [224 + n / 4096, 128 + (n / 64) % 64, 128 + n % 64]
  else [240 + n / 262144, 128 + (n / 4096) % 64, 128 + (n / 64) % 64, 128 + n % 64]

/-- UTF-8 encoding of a string (`s.encode("utf-8")`). -/
def strBytes (s : String) : List Nat := (s.data.map utf8Bytes).flatten

/-- hashlib.sha256(s.encode("utf-8")).hexdigest(). -/
def sha256hex (s : String) : String :=
  String.join ((sha256bytes (strBytes s)).map wordToHex)

set_option maxRecDepth 20000 in
/-- FIPS 180-2 test vector for the SHA-256 embedding. -/
theorem sha256hex_abc :
    sha256hex "abc" =
      "ba7816bf8f01cfea414140de5dae2223b00361a396177a9cb410ff61f20015ad" := by
  decide

/-- A Python value returned by a Celery task body: the Flask revision's
task returns a plain string, an (dict, code) tuple, a dict, or falls off
the end of the function returning None. -/
inductive PyObj where
  | pyNone
  | pyStr (s : String)
  | pyDict (fields : List (String × JsonVal))
  | pyTuple (fields : List (String × JsonVal)) (code : Nat)

/-- JSON serialization of a task result as relayed by /api/get_message:
None becomes null, a tuple becomes a two-element array. -/
def pyToJson : PyObj → JsonVal
  | .pyNone => .null
  | .pyStr s => .str s
  | .pyDict fs => .obj fs
  | .pyTuple fs c => .arr [.obj fs, .num (Int.ofNat c)]

namespace AppPy

/-- The error dict returned by setup_assistant_task when the vector store
id is not configured. -/
def vectorStoreMissing : PyObj :=
  .pyDict [("error", .str "Vector store not configured. Please run scripts/upload-pdfs-to-openai.py and set OPENAI_VECTOR_STORE_ID in GitHub Secrets.")]

/-- Body of the Celery task `setup_assistant_task` (src/app.py lines
76-238): refuse when OPENAI_VECTOR_STORE_ID is unset or empty without any
vendor call; otherwise create the assistant with the pre-existing vector
store as its only file_search resource, hash its id with SHA-256 and store
the mapping under "assistant:" + hash in Redis.  `.error` models an
uncaught Python exception. -/
def setup_assistant_task_body (vsid : Option String) (v : Vendor) (s : St) :
    Except String PyObj × St :=
  match vsid with
  | none => (.ok vectorStoreMissing, s)
  | some vs =>
    if vs = "" then (.ok vectorStoreMissing, s)
    else
      match v.assistantsCreate [vs] with
      | .error e => (.error e, s)
      | .ok raw_assistant_id =>
        let s := s.emit (.assistantCreate [vs])
        let hashed_key := sha256hex raw_assistant_id
        let redis_key := "assistant:" ++ hashed_key
        let s := { s with redis := redisSet s.redis redis_key raw_assistant_id }
        (.ok (.pyDict [("assistant_key", .str hashed_key),
                       ("status", .str "completed")]), s)

/-- setup_assistant_task with its outer try/except: an exception becomes
an error dict result. -/
def setup_assistant_task (vsid : Option String) (v : Vendor) (s : St) :
    PyObj × St :=
  match setup_assistant_task_body vsid v s with
  | (.ok r, s) => (r, s)
  | (.error e, s) => (.pyDict [("error", .str e)], s)

/-- Body of the /api/end route (src/app.py lines 296-312). -/
def end_handler_body (data : Req) (v : Vendor) (s : St) :
    Except String HttpResponse × St :=
  let assistant_key := data.get "assistant_key"
  if !truthy assistant_key then
    (withCode (jsonify [.obj [("error", .str "No assistant found")]] []) 400, s)
  else
    let redis_key := "assistant:" ++ pyStrOf assistant_key
    match redisGet s.redis redis_key with
    | none =>
      (withCode (jsonify [.obj [("error", .str "Assistant not found in Redis or expired")]] []) 400, s)
    | some raw_assistant_id =>
      if raw_assistant_id = "" then
        (withCode (jsonify [.obj [("error", .str "Assistant not found in Redis or expired")]] []) 400, s)
      else
        match v.assistantsDelete raw_assistant_id with
        | .error e => (.error e, s)
        | .ok _ =>
          let s := s.emit (.assistantDelete raw_assistant_id)
          let s := { s with sessAssistantKey := none,
                            redis := redisDel s.redis redis_key }
          (withCode (jsonify [.obj [("message", .str "Assistant deleted successfully")]] []) 200, s)

/-- The /api/end route with its try/except: `return jsonify(\x7b"error":
str(e)\x7d), 500` forwards the message with a real HTTP 500. -/
def end_handler (data : Req) (v : Vendor) (s : St) : HttpResponse × St :=
  match end_handler_body data v s with
  | (.ok r, s) => (r, s)
  | (.error e, s) => (⟨500, .obj [("error", .str e)]⟩, s)

/-- First initial user message: f-string over patient_likes. -/
def initialMsg1 (p1 : JsonVal) : String :=
  "Include these foods of patients " ++ pyStrOf p1

/-- Second initial user message: f-string over patient_dislikes. -/
def initialMsg2 (p2 : JsonVal) : String :=
  "Do not include these foods patient doesn\x27t like or eats: " ++ pyStrOf p2

/-- Third initial user message: f-string over both prompts. -/
def initialMsg3 (p1 p2 : JsonVal) : String :=
  "Each recommendation should build on one of these foods " ++ pyStrOf p1 ++
    " or provide an alternative to one of these foods " ++ pyStrOf p2

/-- Fourth initial user message: f-string over patient_restrictions. -/
def initialMsg4 (p3 : JsonVal) : String :=
  "Patient is allergic or has restrictions and can\x27t eat: " ++ pyStrOf p3

/-- Tail shared verbatim by /api/create_message and
/api/update_with_selections in src/app.py: assistant-key validation, Redis
id lookup and Celery enqueue of run_openai_task. -/
def create_message_tail (thread_id : Option String) (assistant_key : JsonVal)
    (v : Vendor) (s : St) : Except String HttpResponse × St :=
  if !truthy assistant_key then
    (withCode (jsonify [.obj [("error", .str "Assistant not found in session")]] []) 400, s)
  else
    let redis_key := "assistant:" ++ pyStrOf assistant_key
    match redisGet s.redis redis_key with
    | none =>
      (withCode (jsonify [.obj [("error", .str "Assistant not found in Redis or expired")]] []) 400, s)
    | some raw_assistant_id =>
      if raw_assistant_id = "" then
        (withCode (jsonify [.obj [("error", .str "Assistant not found in Redis or expired")]] []) 400, s)
      else
        match v.applyAsync with
        | .error e => (.error e, s)
        | .ok task_id =>
          let s := s.emit (.taskEnqueue thread_id raw_assistant_id)
          (withCode (jsonify [.obj [("task_id", .str task_id)]] []) 202, s)

/-- Body of the /api/create_message route (src/app.py lines 317-366). -/
def create_message_body (data : Req) (v : Vendor) (s : St) :
    Except String HttpResponse × St :=
  let prompt1 := data.get "patient_likes"
  let prompt2 := data.get "patient_dislikes"
  let prompt3 := data.get "patient_restrictions"
  let initial := data.get "initial_request"
  let update := data.get "update"
  let assistant_key := data.get "assistant_key"
  if inputsInvalid initial prompt1 prompt2 prompt3 update then
    -- `return jsonify(\x7b"error": ...\x7d, status=400)` mixes positional
    -- and keyword arguments, so it raises TypeError instead of replying 400
    (jsonify [.obj [("error", .str "All inputs are required")]] [("status", .num 400)], s)
  else if truthy initial then
    match v.threadsCreate [] with
    | .error e => (.error e, s)
    | .ok tid =>
      let s := s.emit (.threadCreate tid [])
      let s := { s with envThreadId := some tid, sessThreadId := some tid }
      match v.messagesCreate (some tid) "user" (.str (initialMsg1 prompt1)) with
      | .error e => (.error e, s)
      | .ok _ =>
      let s := s.emit (.messageCreate (some tid) "user" (.str (initialMsg1 prompt1)))
      match v.messagesCreate (some tid) "user" (.str (initialMsg2 prompt2)) with
      | .error e => (.error e, s)
      | .ok _ =>
      let s := s.emit (.messageCreate (some tid) "user" (.str (initialMsg2 prompt2)))
      match v.messagesCreate (some tid) "user" (.str (initialMsg3 prompt1 prompt2)) with
      | .error e => (.error e, s)
      | .ok _ =>
      let s := s.emit (.messageCreate (some tid) "user" (.str (initialMsg3 prompt1 prompt2)))
      match v.messagesCreate (some tid) "user" (.str (initialMsg4 prompt3)) with
      | .error e => (.error e, s)
      | .ok _ =>
      let s := s.emit (.messageCreate (some tid) "user" (.str (initialMsg4 prompt3)))
      create_message_tail (some tid) assistant_key v s
  else
    let thread_id := pyOrStr s.envThreadId s.sessThreadId
    match v.messagesCreate thread_id "user" update with
    | .error e => (.error e, s)
    | .ok _ =>
      let s := s.emit (.messageCreate thread_id "user" update)
      create_message_tail thread_id assistant_key v s

/-- The /api/create_message route with its try/except: the except branch
runs `jsonify(error=str(e), status=500)`, a keyword-only call producing an
HTTP 200 response whose JSON body carries the message and a "status"
field. -/
def create_message (data : Req) (v : Vendor) (s : St) : HttpResponse × St :=
  match create_message_body data v s with
  | (.ok r, s) => (r, s)
  | (.error e, s) =>
    match jsonify [] [("error", .str e), ("status", .num 500)] with
    | .ok r => (r, s)
    | .error _ => (⟨200, .obj []⟩, s)

/-- Body of the Celery task run_openai_task (src/app.py lines 371-403):
create_and_poll delegates the polling to the vendor SDK and yields the
final run status; on "completed" the thread messages are listed and the
first assistant-authored text value is returned; any other final status
falls off the end of the Python function, which returns None. -/
def run_openai_task_body (thread_id : Option String) (assistant_id : String)
    (v : Vendor) (s : St) : Except String PyObj × St :=
  match v.runsCreateAndPoll thread_id assistant_id with
  | .error e => (.error e, s)
  | .ok status =>
    let s := s.emit (.runCreateAndPoll thread_id assistant_id)
    if status = "completed" then
      match v.messagesList thread_id with
      | .error e => (.error e, s)
      | .ok msgs =>
        let s := s.emit (.messagesList thread_id)
        -- `if len(messages.data) > 0: for msg in messages.data: if
        -- msg.role == "assistant": append` builds the filtered sublist
        let assistant_messages :=
          if msgs.length > 0 then msgs.filter (fun m => m.role == "assistant")
          else []
        match assistant_messages with
        | m :: _ =>
          -- assistant_messages[0]["content"][0].text.value
          match m.content with
          | [] => (.error "list index out of range", s)
          | t :: _ => (.ok (.pyStr t), s)
        | [] =>
          (.ok (.pyTuple [("error", .str "No assistant messages found, please resubmit response")] 500), s)
    else
      (.ok .pyNone, s)

/-- run_openai_task with its try/except: an exception becomes an error
dict result. -/
def run_openai_task (thread_id : Option String) (assistant_id : String)
    (v : Vendor) (s : St) : PyObj × St :=
  match run_openai_task_body thread_id assistant_id v s with
  | (.ok r, s) => (r, s)
  | (.error e, s) => (.pyDict [("error", .str e), ("status", .num 500)], s)

/-- The /api/update_with_selections route (submit_recommendations,
src/app.py lines 405-433).  It has no try/except: `.error` is an exception
propagating to the framework's default handler.  Its tail repeats the
create_message tail verbatim in the source. -/
def submit_recommendations (data : Req) (v : Vendor) (s : St) :
    Except String HttpResponse × St :=
  let recommendations := data.get "recommendations"
  let assistant_key := data.get "assistant_key"
  let update := data.get "update"
  let thread_id := pyOrStr s.envThreadId s.sessThreadId
  if strFalsy thread_id then
    (withCode (jsonify [.obj [("error", .str "Thread ID not found")]] []) 400, s)
  else
    let c1 : JsonVal := .str ("Updates from user: " ++ pyStrOf update)
    let c2 : JsonVal := .str ("The user has provided the following recommendations: " ++
      pyStrOf recommendations ++ ", please give more suggestions like that.")
    let c3 : JsonVal := .str "Please provide 20 recommendations in the same format as before."
    match v.messagesCreate thread_id "user" c1 with
    | .error e => (.error e, s)
    | .ok _ =>
    let s := s.emit (.messageCreate thread_id "user" c1)
    match v.messagesCreate thread_id "user" c2 with
    | .error e => (.error e, s)
    | .ok _ =>
    let s := s.emit (.messageCreate thread_id "user" c2)
    match v.messagesCreate thread_id "user" c3 with
    | .error e => (.error e, s)
    | .ok _ =>
    let s := s.emit (.messageCreate thread_id "user" c3)
    create_message_tail thread_id assistant_key v s

/-- The /api/get_message route (src/app.py lines 435-461): relay the
Celery task state and stored result.  `taskState`, `taskResult`, `taskInfo`
are the AsyncResult fields read from the result backend; every response is
built by a single-argument jsonify call and therefore carries HTTP 200,
except the missing-task_id rejection. -/
def get_message (data : Req) (taskState : String) (taskResult : PyObj)
    (taskInfo : String) : HttpResponse :=
  let task_id := data.get "task_id"
  if !truthy task_id then
    ⟨400, .obj [("error", .str "task_id is required")]⟩
  else if taskState = "PENDING" then
    ⟨200, .obj [("state", .str taskState), ("status", .str "Pending...")]⟩
  else if taskState ≠ "FAILURE" then
    ⟨200, .obj [("state", .str taskState), ("result", pyToJson taskResult)]⟩
  else
    ⟨200, .obj [("state", .str taskState), ("error", .str taskInfo)]⟩

end AppPy

namespace FuncApp

/-- The initial user message posted when a thread is created by the Azure
Functions revision (src/api/function_app.py lines 81-94). -/
def initialThreadMsg : String :=
  "Create 20 simple recommendations for a patient with ARFID. Focus the recommendations on using 3 or less ingredients to broaden the patient\x27s diet."

/-- The `while True` polling loop of run_openai (src/api/function_app.py
lines 124-130), interpreted with fuel: `i` is the poll counter, and a
`.ok none` result means the fuel ran out while the loop was still
polling.  The loop body only tests `run.status == "completed"`; any other
status (including "failed") just sleeps and polls again. -/
def run_openai_go (v : Vendor) (tid : Option String) (rid : String) :
    Nat → Nat → St → Except String (Option FuncResponse) × St
  | _, 0, s => (.ok none, s)
  | i, fuel + 1, s =>
    match v.runsRetrieve i with
    | .error e => (.error e, s)
    | .ok status =>
      let s := s.emit (.runRetrieve tid rid)
      if status = "completed" then
        match v.messagesList tid with
        | .error e => (.error e, s)
        | .ok msgs =>
          let s := s.emit (.messagesList tid)
          -- last_message = messages.data[0]; body =
          -- last_message.content[0].text.value  (no role check at all)
          match msgs with
          | [] => (.error "list index out of range", s)
          | m :: _ =>
            match m.content with
            | [] => (.error "list index out of range", s)
            | t :: _ => (.ok (some ⟨t, 200⟩), s)
      else
        run_openai_go v tid rid (i + 1) fuel s

/-- run_openai (src/api/function_app.py lines 119-132): start a run, poll
it, and catch every exception as an HTTP 500 whose body is the message.
`none` means the loop was still polling when the fuel ran out. -/
def run_openai (v : Vendor) (tid : Option String) (fuel : Nat) (s : St) :
    Option FuncResponse × St :=
  match v.runsCreate tid with
  | .error e => (some ⟨e, 500⟩, s)
  | .ok rid =>
    let s := s.emit (.runCreate tid rid)
    match run_openai_go v tid rid 0 fuel s with
    | (.ok r, s) => (r, s)
    | (.error e, s) => (some ⟨e, 500⟩, s)

/-- The create_message handler of src/api/function_app.py (lines 58-116;
create_message2 at lines 135-193 repeats the same body verbatim).  The
session does not exist here: only the process environment variable stores
the thread id.  `none` means the handler was still inside the polling loop
when the fuel ran out. -/
def create_message (data : Req) (v : Vendor) (fuel : Nat) (s : St) :
    Option FuncResponse × St :=
  let prompt1 := data.get "patient_likes"
  let prompt2 := data.get "patient_dislikes"
  let prompt3 := data.get "patient_restrictions"
  let initial := data.get "initial_request"
  let update := data.get "update"
  if inputsInvalid initial prompt1 prompt2 prompt3 update then
    (some ⟨"All inputs are required", 400⟩, s)
  else
    match v.filesCreate with
    | .error e => (some ⟨e, 500⟩, s)
    | .ok _ =>
    let s := s.emit .fileCreate
    if truthy initial then
      match v.threadsCreate [("user", initialThreadMsg)] with
      | .error e => (some ⟨e, 500⟩, s)
      | .ok tid =>
        let s := s.emit (.threadCreate tid [("user", initialThreadMsg)])
        let s := { s with envThreadId := some tid }
        match v.messagesCreate (some tid) "user" prompt1 with
        | .error e => (some ⟨e, 500⟩, s)
        | .ok _ =>
        let s := s.emit (.messageCreate (some tid) "user" prompt1)
        match v.messagesCreate (some tid) "user" prompt2 with
        | .error e => (some ⟨e, 500⟩, s)
        | .ok _ =>
        let s := s.emit (.messageCreate (some tid) "user" prompt2)
        match v.messagesCreate (some tid) "user" prompt3 with
        | .error e => (some ⟨e, 500⟩, s)
        | .ok _ =>
        let s := s.emit (.messageCreate (some tid) "user" prompt3)
        run_openai v (some tid) fuel s
    else
      let thread_id := s.envThreadId
      match v.messagesCreate thread_id "user" update with
      | .error e => (some ⟨e, 500⟩, s)
      | .ok _ =>
        let s := s.emit (.messageCreate thread_id "user" update)
        run_openai v thread_id fuel s

/-- The polling loop of run_openai eventually exits (with any response)
for some fuel bound. -/
def run_openai_terminates (v : Vendor) (tid : Option String) (s : St) : Prop :=
  ∃ fuel, (run_openai v tid fuel s).fst.isSome

end FuncApp

/-
Concrete vendor oracles used by witnesses and counterexamples.
-/

/-- A vendor oracle on which every call succeeds; the run completes after
one pending poll and the thread holds one assistant message. -/
def vOk : Vendor where
  threadsCreate := fun _ => .ok "thread_1"
  messagesCreate := fun _ _ _ => .ok ()
  messagesList := fun _ => .ok [⟨"assistant", ["answer_text"]⟩]
  runsCreateAndPoll := fun _ _ => .ok "completed"
  runsCreate := fun _ => .ok "run_1"
  runsRetrieve := fun i => .ok (if i = 0 then "queued" else "completed")
  filesCreate := .ok "file_1"
  assistantsCreate := fun _ => .ok "asst_raw_1"
  assistantsDelete := fun _ => .ok ()
  applyAsync := .ok "task_1"

/-- A vendor oracle whose run reaches the terminal status "failed" and
stays there on every poll. -/
def vFailedRun : Vendor :=
  { vOk with
      runsRetrieve := fun _ => .ok "failed"
      runsCreateAndPoll := fun _ _ => .ok "failed" }

/-
Shared lemmas about the function_app polling loop.
-/

/-- If no poll ever reports "completed" (and polls never raise), the
`while True` loop keeps running: for every fuel bound it is still polling. -/
theorem run_openai_go_stuck (v : Vendor) (tid : Option String) (rid : String)
    (statuses : Nat → String)
    (hret : ∀ i, v.runsRetrieve i = .ok (statuses i))
    (hnc : ∀ j, statuses j ≠ "completed") :
    ∀ fuel i s, (FuncApp.run_openai_go v tid rid i fuel s).fst = .ok none := by
  intro fuel
  induction fuel with
  | zero => intro i s; rfl
  | succ n ih =>
    intro i s
    simp only [FuncApp.run_openai_go, hret i]
    rw [if_neg (hnc i)]
    exact ih (i + 1) _

/-- If some poll within the fuel bound reports "completed" (and polls never
raise), the loop is no longer polling once the fuel is spent. -/
theorem run_openai_go_exits (v : Vendor) (tid : Option String) (rid : String)
    (statuses : Nat → String)
    (hret : ∀ i, v.runsRetrieve i = .ok (statuses i)) :
    ∀ fuel i s, (∃ j, j < fuel ∧ statuses (i + j) = "completed") →
      (FuncApp.run_openai_go v tid rid i fuel s).fst ≠ .ok none := by
  intro fuel
  induction fuel with
  | zero =>
    intro i s h
    obtain ⟨j, hj, _⟩ := h
    omega
  | succ n ih =>
    intro i s h
    simp only [FuncApp.run_openai_go, hret i]
    by_cases hc : statuses i = "completed"
    · rw [if_pos hc]
      cases hml : v.messagesList tid with
      | error e => simp
      | ok msgs =>
        cases msgs with
        | nil => simp
        | cons m rest =>
          cases hmc : m.content with
          | nil => simp [hmc]
          | cons t ts => simp [hmc]
    · rw [if_neg hc]
      apply ih (i + 1)
      obtain ⟨j, hj, hcj⟩ := h
      cases j with
      | zero => simp at hcj; exact absurd hcj hc
      | succ k =>
        refine ⟨k, by omega, ?_⟩
        have : i + 1 + k = i + (k + 1) := by omega
        rw [this]
        exact hcj

/-- Claim C1 counterexample: when the vendor reports the terminal status
"failed" on every poll, the function_app polling loop never exits — it
does not stop on a terminal, non-completed status, contradicting the claim
that it exits both on "completed" and on "failed". -/
theorem C1_counterexample :
    ¬ FuncApp.run_openai_terminates vFailedRun (some "thread_1") St.init := by
  rintro ⟨fuel, h⟩
  have hc : vFailedRun.runsCreate (some "thread_1") = .ok "run_1" := rfl
  simp only [FuncApp.run_openai, hc] at h
  have hstuck := run_openai_go_stuck vFailedRun (some "thread_1") "run_1"
    (fun _ => "failed") (fun i => rfl)
    (fun _ => (by decide : "failed" ≠ "completed")) fuel 0
    (St.init.emit (SdkOp.runCreate (some "thread_1") "run_1"))
  rcases hp : FuncApp.run_openai_go vFailedRun (some "thread_1") "run_1" 0 fuel
      (St.init.emit (SdkOp.runCreate (some "thread_1") "run_1")) with ⟨r, s2⟩
  rw [hp] at hstuck h
  have hr : r = .ok none := hstuck
  subst hr
  simp at h

/-- Claim C1 (amended): in the function_app revision, the polling loop
around a run exits if and only if some poll reports the status
"completed"; every other status — including the terminal status "failed" —
makes it sleep and poll again, so it only stops at "completed" (the app.py
revision delegates its polling entirely to the vendor SDK's
create_and_poll and has no loop of its own). -/
theorem C1_amended (v : Vendor) (tid : Option String) (rid : String) (s : St)
    (statuses : Nat → String)
    (hrun : v.runsCreate tid = .ok rid)
    (hret : ∀ i, v.runsRetrieve i = .ok (statuses i)) :
    FuncApp.run_openai_terminates v tid s ↔ ∃ n, statuses n = "completed" := by
  constructor
  · rintro ⟨fuel, h⟩
    by_contra hno
    push_neg at hno
    have hstuck := run_openai_go_stuck v tid rid statuses hret hno fuel 0
      (s.emit (SdkOp.runCreate tid rid))
    simp only [FuncApp.run_openai, hrun] at h
    rcases hp : FuncApp.run_openai_go v tid rid 0 fuel
        (s.emit (SdkOp.runCreate tid rid)) with ⟨r, s2⟩
    rw [hp] at hstuck h
    have hr : r = .ok none := hstuck
    subst hr
    simp at h
  · rintro ⟨n, hn⟩
    refine ⟨n + 1, ?_⟩
    have hex := run_openai_go_exits v tid rid statuses hret (n + 1) 0
      (s.emit (SdkOp.runCreate tid rid)) ⟨n, by omega, by simpa using hn⟩
    simp only [FuncApp.run_openai, hrun]
    rcases hp : FuncApp.run_openai_go v tid rid 0 (n + 1)
        (s.emit (SdkOp.runCreate tid rid)) with ⟨r, s2⟩
    rw [hp] at hex
    cases r with
    | error e => simp
    | ok ro =>
      cases ro with
      | none => exact absurd rfl hex
      | some resp => simp

/-- Witness for C1_amended: a run that completes on the second poll. -/
theorem C1_amended_witness :
    FuncApp.run_openai_terminates vOk (some "thread_1") St.init ↔
      ∃ n, (if n = 0 then "queued" else "completed") = "completed" :=
  C1_amended vOk (some "thread_1") "run_1" St.init
    (fun i => if i = 0 then "queued" else "completed") rfl (fun i => rfl)

/-- A vendor oracle whose run is already "completed" at the first poll. -/
def vDone : Vendor :=
  { vOk with runsRetrieve := fun _ => .ok "completed" }

/-- A vendor oracle listing a user-authored message first (and only). -/
def vUserFirst : Vendor :=
  { vDone with messagesList := fun _ => .ok [⟨"user", ["user_text"]⟩] }

/-- Unfolding of run_openai_task through its try/except wrapper. -/
theorem AppPy.run_openai_task_eq (tid : Option String) (aid : String)
    (v : Vendor) (s : St) :
    AppPy.run_openai_task tid aid v s =
      match AppPy.run_openai_task_body tid aid v s with
      | (.ok r, s2) => (r, s2)
      | (.error e, s2) =>
          (.pyDict [("error", .str e), ("status", .num 500)], s2) := by
  unfold AppPy.run_openai_task
  rcases AppPy.run_openai_task_body tid aid v s with ⟨r, s2⟩
  cases r <;> rfl

/-- Unfolding of create_message through its try/except wrapper: the except
branch is the keyword-only jsonify call, an HTTP 200 response. -/
theorem AppPy.create_message_eq (d : Req) (v : Vendor) (s : St) :
    AppPy.create_message d v s =
      match AppPy.create_message_body d v s with
      | (.ok r, s2) => (r, s2)
      | (.error e, s2) =>
          (⟨200, .obj [("error", .str e), ("status", .num 500)]⟩, s2) := by
  unfold AppPy.create_message
  rcases AppPy.create_message_body d v s with ⟨r, s2⟩
  cases r <;> rfl

/-- Unfolding of end_handler through its try/except wrapper. -/
theorem AppPy.end_handler_eq (d : Req) (v : Vendor) (s : St) :
    AppPy.end_handler d v s =
      match AppPy.end_handler_body d v s with
      | (.ok r, s2) => (r, s2)
      | (.error e, s2) => (⟨500, .obj [("error", .str e)]⟩, s2) := by
  unfold AppPy.end_handler
  rcases AppPy.end_handler_body d v s with ⟨r, s2⟩
  cases r <;> rfl

/-- Unfolding of setup_assistant_task through its try/except wrapper. -/
theorem AppPy.setup_assistant_task_eq (vsid : Option String) (v : Vendor)
    (s : St) :
    AppPy.setup_assistant_task vsid v s =
      match AppPy.setup_assistant_task_body vsid v s with
      | (.ok r, s2) => (r, s2)
      | (.error e, s2) => (.pyDict [("error", .str e)], s2) := by
  unfold AppPy.setup_assistant_task
  rcases AppPy.setup_assistant_task_body vsid v s with ⟨r, s2⟩
  cases r <;> rfl

/-- Claim C2 counterexample: in the function_app revision a completed run
whose freshest listed message is user-authored relays that user message
(there is no role filter): the thread has no assistant-authored message at
all, yet the 200 response carries the user text. -/
theorem C2_counterexample :
    (FuncApp.run_openai vUserFirst (some "thread_1") 1 St.init).fst =
        some ⟨"user_text", 200⟩ ∧
      List.filter (fun m => m.role == "assistant")
        [Msg.mk "user" ["user_text"]] = [] := by
  exact ⟨rfl, rfl⟩

/-- Claim C2 (amended): when the run completes, the app.py task returns
the text value of the first listed message whose role is "assistant" —
never a user-authored one; the function_app revision instead relays the
text of the very first listed message regardless of its role. -/
theorem C2_amended (tid : Option String) (aid : String) (v : Vendor) (s : St)
    (msgs : List Msg)
    (hpoll : v.runsCreateAndPoll tid aid = .ok "completed")
    (hlist : v.messagesList tid = .ok msgs) :
    (∀ m rest, msgs.filter (fun m2 => m2.role == "assistant") = m :: rest →
      ∀ t ts, m.content = t :: ts →
        (AppPy.run_openai_task tid aid v s).fst = .pyStr t ∧
          m.role = "assistant") ∧
    (∀ rid m rest, v.runsCreate tid = .ok rid →
      v.runsRetrieve 0 = .ok "completed" → msgs = m :: rest →
      ∀ t ts, m.content = t :: ts →
        (FuncApp.run_openai v tid 1 s).fst = some ⟨t, 200⟩) := by
  constructor
  · intro m rest hfil t ts hmc
    have hmem : m ∈ msgs.filter (fun m2 => m2.role == "assistant") := by
      rw [hfil]; exact List.mem_cons_self _ _
    have hrole : m.role = "assistant" := by
      have h2 := List.of_mem_filter hmem
      simpa using h2
    have hne : msgs ≠ [] := by
      intro h0; rw [h0] at hfil; simp at hfil
    have hlen : msgs.length > 0 := List.length_pos.mpr hne
    refine ⟨?_, hrole⟩
    rw [AppPy.run_openai_task_eq]
    simp only [AppPy.run_openai_task_body, hpoll, hlist]
    simp [hfil, hmc, hlen]
  · intro rid m rest hrun hret0 hmsgs t ts hmc
    simp only [FuncApp.run_openai, hrun]
    simp only [FuncApp.run_openai_go, hret0]
    simp [hlist, hmsgs, hmc]

/-- Witness for C2_amended: one assistant message in the thread; both
revisions relay its first text value. -/
theorem C2_amended_witness :
    (AppPy.run_openai_task (some "thread_1") "asst_raw_1" vDone St.init).fst =
        .pyStr "answer_text" ∧
      (FuncApp.run_openai vDone (some "thread_1") 1 St.init).fst =
        some ⟨"answer_text", 200⟩ :=
  have h := C2_amended (some "thread_1") "asst_raw_1" vDone St.init
    [⟨"assistant", ["answer_text"]⟩] rfl rfl
  ⟨(h.1 ⟨"assistant", ["answer_text"]⟩ [] rfl "answer_text" [] rfl).1,
    h.2 "run_1" ⟨"assistant", ["answer_text"]⟩ [] rfl rfl rfl
      "answer_text" [] rfl⟩

/-- A vendor oracle whose thread creation raises "boom". -/
def vBoom : Vendor := { vOk with threadsCreate := fun _ => .error "boom" }

/-- A vendor oracle whose file upload raises "boom". -/
def vBoomFile : Vendor := { vOk with filesCreate := .error "boom" }

/-- A vendor oracle whose assistant deletion raises "boom". -/
def vBoomDel : Vendor := { vOk with assistantsDelete := fun _ => .error "boom" }

/-- A vendor oracle whose message creation raises "boom". -/
def vBoomMsg : Vendor := { vOk with messagesCreate := fun _ _ _ => .error "boom" }

/-- A well-formed initial create_message request body. -/
def dataInitial : Req :=
  [("patient_likes", .str "rice"), ("patient_dislikes", .str "peas"),
   ("patient_restrictions", .str "peanuts"), ("initial_request", .bool true),
   ("assistant_key", .str "k")]

/-- An /api/end request body presenting assistant key "k". -/
def dataEnd : Req := [("assistant_key", .str "k")]

/-- An update request body presenting assistant key "k". -/
def dataUpd : Req := [("update", .str "more"), ("assistant_key", .str "k")]

/-- A server state holding a stored thread id and the Redis mapping for
assistant key "k". -/
def stWithKey : St :=
  { St.init with redis := [("assistant:k", "asst_raw_1")],
                 envThreadId := some "thread_0" }

/-- Claim C3 counterexample: when the vendor SDK raises "boom" inside the
Flask create_message handler, the response has HTTP status 200, not 500 —
`jsonify(error=str(e), status=500)` puts 500 in the JSON body and leaves
the real status code at 200. -/
theorem C3_counterexample :
    (AppPy.create_message dataInitial vBoom St.init).fst =
        ⟨200, .obj [("error", .str "boom"), ("status", .num 500)]⟩ ∧
      (AppPy.create_message dataInitial vBoom St.init).fst.statusCode ≠ 500 :=
  ⟨rfl, by decide⟩

/-- Claim C3 (amended): exception handling differs by handler.  The
function_app handler and the Flask /api/end handler do respond HTTP 500
with the exception message in the body; the Flask /api/create_message
handler catches the exception but replies HTTP 200 carrying the message
and a "status": 500 JSON field; and /api/update_with_selections has no
try/except at all, so a vendor exception propagates unhandled to the
framework. -/
theorem C3_amended :
    (∀ (d : Req) (v : Vendor) (e : String) (fuel : Nat) (s : St),
      inputsInvalid (d.get "initial_request") (d.get "patient_likes")
        (d.get "patient_dislikes") (d.get "patient_restrictions")
        (d.get "update") = false →
      v.filesCreate = .error e →
      FuncApp.create_message d v fuel s = (some ⟨e, 500⟩, s)) ∧
    (∀ (d : Req) (v : Vendor) (e raw : String) (s : St),
      truthy (d.get "assistant_key") = true →
      redisGet s.redis ("assistant:" ++ pyStrOf (d.get "assistant_key")) =
        some raw →
      raw ≠ "" →
      v.assistantsDelete raw = .error e →
      (AppPy.end_handler d v s).fst = ⟨500, .obj [("error", .str e)]⟩) ∧
    (∀ (d : Req) (v : Vendor) (e : String) (s : St),
      inputsInvalid (d.get "initial_request") (d.get "patient_likes")
        (d.get "patient_dislikes") (d.get "patient_restrictions")
        (d.get "update") = false →
      truthy (d.get "initial_request") = true →
      v.threadsCreate [] = .error e →
      (AppPy.create_message d v s).fst =
        ⟨200, .obj [("error", .str e), ("status", .num 500)]⟩) ∧
    (∀ (d : Req) (v : Vendor) (e : String) (s : St),
      strFalsy (pyOrStr s.envThreadId s.sessThreadId) = false →
      v.messagesCreate (pyOrStr s.envThreadId s.sessThreadId) "user"
        (.str ("Updates from user: " ++ pyStrOf (d.get "update"))) =
        .error e →
      (AppPy.submit_recommendations d v s).fst = .error e) := by
  refine ⟨?_, ?_, ?_, ?_⟩
  · intro d v e fuel s hinv hfc
    simp only [FuncApp.create_message, hinv, hfc]
    simp
  · intro d v e raw s htr hget hraw hdel
    rw [AppPy.end_handler_eq]
    simp only [AppPy.end_handler_body, htr, hget, hdel]
    simp [hraw]
  · intro d v e s hinv htr hthr
    rw [AppPy.create_message_eq]
    simp only [AppPy.create_message_body, hinv, htr, hthr]
    simp
  · intro d v e s hfal hmsg
    simp only [AppPy.submit_recommendations, hfal, hmsg]
    simp

/-- Witness for C3_amended at concrete inputs for each of its four
clauses. -/
theorem C3_amended_witness :
    FuncApp.create_message dataInitial vBoomFile 3 St.init =
        (some ⟨"boom", 500⟩, St.init) ∧
      (AppPy.end_handler dataEnd vBoomDel stWithKey).fst =
        ⟨500, .obj [("error", .str "boom")]⟩ ∧
      (AppPy.create_message dataInitial vBoom St.init).fst =
        ⟨200, .obj [("error", .str "boom"), ("status", .num 500)]⟩ ∧
      (AppPy.submit_recommendations dataUpd vBoomMsg stWithKey).fst =
        .error "boom" :=
  ⟨C3_amended.1 dataInitial vBoomFile "boom" 3 St.init rfl rfl,
   C3_amended.2.1 dataEnd vBoomDel "boom" "asst_raw_1" stWithKey rfl rfl
     (by decide) rfl,
   C3_amended.2.2.1 dataInitial vBoom "boom" St.init rfl rfl rfl,
   C3_amended.2.2.2 dataUpd vBoomMsg "boom" stWithKey rfl rfl⟩

/-- An invalid request: initial_request truthy but all three prompts
absent. -/
def dataBad : Req := [("initial_request", .bool true)]

/-- Claim C4 evidence: on an invalid body the Flask handler tries
`jsonify(\x7b...\x7d, status=400)`, which raises TypeError; the except
branch then responds HTTP 200 with the TypeError text, not HTTP 400 as the
literal `status=400` intends — while the function_app handler does return
the intended 400.  In both revisions no vendor operation happens. -/
theorem C4_theorem :
    (AppPy.create_message dataBad vOk St.init).fst =
        ⟨200, .obj [("error",
          .str "jsonify() behavior undefined when passed both args and kwargs"),
          ("status", .num 500)]⟩ ∧
      (AppPy.create_message dataBad vOk St.init).snd.trace = [] ∧
      FuncApp.create_message dataBad vOk 3 St.init =
        (some ⟨"All inputs are required", 400⟩, St.init) :=
  ⟨rfl, rfl, rfl⟩

/-- The created-or-error state of the create_message wrapper equals the
body's state: the try/except only changes the response. -/
theorem AppPy.create_message_snd (d : Req) (v : Vendor) (s : St) :
    (AppPy.create_message d v s).snd = (AppPy.create_message_body d v s).snd := by
  rw [AppPy.create_message_eq]
  rcases AppPy.create_message_body d v s with ⟨r, s2⟩
  cases r <;> rfl

/-- The tail shared by create_message and update_with_selections either
leaves the state unchanged (on its early 400 returns or on a broker
exception) or just records the one task-enqueue operation carrying the raw
assistant id recovered from Redis. -/
theorem AppPy.create_message_tail_cases (th : Option String) (ak : JsonVal)
    (v : Vendor) (s : St) :
    (AppPy.create_message_tail th ak v s).snd = s ∨
      ∃ raw, (AppPy.create_message_tail th ak v s).snd =
        s.emit (SdkOp.taskEnqueue th raw) := by
  unfold AppPy.create_message_tail
  cases hak : !truthy ak with
  | true => simp only [hak]; left; rfl
  | false =>
    simp only [hak, Bool.false_eq_true, if_false]
    cases hg : redisGet s.redis ("assistant:" ++ pyStrOf ak) with
    | none => simp only [hg]; left; trivial
    | some raw =>
      simp only [hg]
      by_cases hr : raw = ""
      · rw [if_pos hr]; left; rfl
      · rw [if_neg hr]
        cases ha : v.applyAsync with
        | error e => simp only [ha]; left; trivial
        | ok task_id => simp only [ha]; right; exact ⟨raw, rfl⟩

/-- The shared handler tail preserves both stored thread ids and every
already-recorded operation. -/
theorem AppPy.create_message_tail_keeps (th : Option String) (ak : JsonVal)
    (v : Vendor) (s2 : St) :
    (AppPy.create_message_tail th ak v s2).snd.envThreadId = s2.envThreadId ∧
      (AppPy.create_message_tail th ak v s2).snd.sessThreadId = s2.sessThreadId ∧
      ∀ op : SdkOp, op ∈ s2.trace →
        op ∈ (AppPy.create_message_tail th ak v s2).snd.trace := by
  rcases AppPy.create_message_tail_cases th ak v s2 with hc | ⟨raw, hc⟩ <;>
    rw [hc] <;> simp [St.emit]
  intro op hop
  exact Or.inl hop

/-- The shared handler tail creates no vendor thread. -/
theorem AppPy.create_message_tail_no_thread (th : Option String) (ak : JsonVal)
    (v : Vendor) (s2 : St)
    (h : ∀ t ms, SdkOp.threadCreate t ms ∉ s2.trace) :
    ∀ t ms, SdkOp.threadCreate t ms ∉
      (AppPy.create_message_tail th ak v s2).snd.trace := by
  rcases AppPy.create_message_tail_cases th ak v s2 with hc | ⟨raw, hc⟩ <;>
    rw [hc]
  · exact h
  · intro t ms hmem
    rw [St.emit] at hmem
    simp only [List.mem_append, List.mem_singleton] at hmem
    rcases hmem with hmem | hmem
    · exact h t ms hmem
    · exact SdkOp.noConfusion hmem

/-- One state extends another without touching the stored environment
thread id, dropping any recorded operation, or introducing a thread
creation that was not already recorded. -/
def StKeeps (s s2 : St) : Prop :=
  s2.envThreadId = s.envThreadId ∧
    (∀ op : SdkOp, op ∈ s.trace → op ∈ s2.trace) ∧
    (∀ t ms, SdkOp.threadCreate t ms ∉ s.trace →
      SdkOp.threadCreate t ms ∉ s2.trace)

theorem StKeeps.refl (s : St) : StKeeps s s :=
  ⟨Eq.refl _, fun _ h => h, fun _ _ h => h⟩

theorem StKeeps.trans (h1 : StKeeps a b) (h2 : StKeeps b c) : StKeeps a c :=
  ⟨h2.1.trans h1.1, fun op h => h2.2.1 op (h1.2.1 op h),
    fun t ms h => h2.2.2 t ms (h1.2.2 t ms h)⟩

/-- Recording any operation other than a thread creation keeps the
state in the StKeeps sense. -/
theorem StKeeps.emit (s : St) (op : SdkOp)
    (hop : ∀ t ms, op ≠ SdkOp.threadCreate t ms) : StKeeps s (s.emit op) := by
  refine ⟨Eq.refl _, ?_, ?_⟩
  · intro op2 h
    rw [St.emit]
    simp [h]
  · intro t ms h hmem
    rw [St.emit] at hmem
    simp only [List.mem_append, List.mem_singleton] at hmem
    rcases hmem with hmem | hmem
    · exact h hmem
    · exact hop t ms hmem.symm

/-- The function_app polling loop never changes the stored environment
thread id, never drops a recorded operation, and never creates a thread. -/
theorem FuncApp.run_openai_go_keeps (v : Vendor) (tid : Option String)
    (rid : String) :
    ∀ fuel i s, StKeeps s (FuncApp.run_openai_go v tid rid i fuel s).snd := by
  intro fuel
  induction fuel with
  | zero => intro i s; exact StKeeps.refl s
  | succ n ih =>
    intro i s
    unfold FuncApp.run_openai_go
    cases hr : v.runsRetrieve i with
    | error e => simp only [hr]; exact StKeeps.refl s
    | ok status =>
      simp only [hr]
      have k1 : StKeeps s (s.emit (SdkOp.runRetrieve tid rid)) :=
        StKeeps.emit _ _ (fun _ _ h => SdkOp.noConfusion h)
      by_cases hc : status = "completed"
      · rw [if_pos hc]
        cases hl : v.messagesList tid with
        | error e => simp only [hl]; exact k1
        | ok msgs =>
          simp only [hl]
          have k2 := k1.trans (StKeeps.emit
            (s.emit (SdkOp.runRetrieve tid rid)) (SdkOp.messagesList tid)
            (fun _ _ h => SdkOp.noConfusion h))
          cases msgs with
          | nil => exact k2
          | cons m rest =>
            cases hmc : m.content with
            | nil => simp only [hmc]; exact k2
            | cons t ts => simp only [hmc]; exact k2
      · rw [if_neg hc]
        exact k1.trans (ih (i + 1) _)

/-- run_openai never changes the stored environment thread id, never
drops a recorded operation, and never creates a thread. -/
theorem FuncApp.run_openai_keeps (v : Vendor) (tid : Option String)
    (fuel : Nat) (s : St) :
    StKeeps s (FuncApp.run_openai v tid fuel s).snd := by
  unfold FuncApp.run_openai
  cases hc : v.runsCreate tid with
  | error e => simp only [hc]; exact StKeeps.refl s
  | ok rid =>
    simp only [hc]
    have k1 : StKeeps s (s.emit (SdkOp.runCreate tid rid)) :=
      StKeeps.emit _ _ (fun _ _ h => SdkOp.noConfusion h)
    have k3 := k1.trans (FuncApp.run_openai_go_keeps v tid rid fuel 0
      (s.emit (SdkOp.runCreate tid rid)))
    rcases hp : FuncApp.run_openai_go v tid rid 0 fuel
        (s.emit (SdkOp.runCreate tid rid)) with ⟨r, s2⟩
    rw [hp] at k3
    cases r <;> exact k3

/-- Claim C5: for every accepted create_message request, in both
revisions, a new vendor thread is created exactly when initial_request is
truthy and its fresh id is stored for later requests (environment variable
and session in app.py; environment variable in function_app.py); when
initial_request is falsy no thread is created and the follow-up update is
appended to the previously stored thread id. -/
theorem C5_theorem (d : Req) (v : Vendor) (s : St) (tid tidF fid : String)
    (fuel : Nat)
    (hinv : inputsInvalid (d.get "initial_request") (d.get "patient_likes")
      (d.get "patient_dislikes") (d.get "patient_restrictions")
      (d.get "update") = false)
    (hthr : v.threadsCreate [] = .ok tid)
    (hthrF : v.threadsCreate [("user", FuncApp.initialThreadMsg)] = .ok tidF)
    (hfile : v.filesCreate = .ok fid)
    (hmsg : ∀ t r c, v.messagesCreate t r c = .ok ()) :
    (truthy (d.get "initial_request") = true →
      (AppPy.create_message d v s).snd.envThreadId = some tid ∧
        (AppPy.create_message d v s).snd.sessThreadId = some tid ∧
        SdkOp.threadCreate tid [] ∈ (AppPy.create_message d v s).snd.trace) ∧
    (truthy (d.get "initial_request") = false → s.trace = [] →
      (∀ t2 ms, SdkOp.threadCreate t2 ms ∉
        (AppPy.create_message d v s).snd.trace) ∧
      SdkOp.messageCreate (pyOrStr s.envThreadId s.sessThreadId) "user"
        (d.get "update") ∈ (AppPy.create_message d v s).snd.trace) ∧
    (truthy (d.get "initial_request") = true →
      (FuncApp.create_message d v fuel s).snd.envThreadId = some tidF ∧
        SdkOp.threadCreate tidF [("user", FuncApp.initialThreadMsg)] ∈
          (FuncApp.create_message d v fuel s).snd.trace) ∧
    (truthy (d.get "initial_request") = false → s.trace = [] →
      (∀ t2 ms, SdkOp.threadCreate t2 ms ∉
        (FuncApp.create_message d v fuel s).snd.trace) ∧
      SdkOp.messageCreate s.envThreadId "user" (d.get "update") ∈
        (FuncApp.create_message d v fuel s).snd.trace) := by
  refine ⟨?_, ?_, ?_, ?_⟩
  · intro htr
    rw [AppPy.create_message_snd]
    unfold AppPy.create_message_body
    simp only [hinv, Bool.false_eq_true, if_false, htr, if_true, hthr, hmsg]
    refine ⟨(AppPy.create_message_tail_keeps _ _ _ _).1.trans ?_,
      (AppPy.create_message_tail_keeps _ _ _ _).2.1.trans ?_,
      (AppPy.create_message_tail_keeps _ _ _ _).2.2 _ ?_⟩
    · rfl
    · rfl
    · simp [St.emit]
  · intro htr htrace
    rw [AppPy.create_message_snd]
    unfold AppPy.create_message_body
    simp only [hinv, Bool.false_eq_true, if_false, htr, hmsg]
    constructor
    · apply AppPy.create_message_tail_no_thread
      intro t ms hmem
      rw [St.emit] at hmem
      simp only [htrace, List.nil_append, List.mem_singleton] at hmem
      exact SdkOp.noConfusion hmem
    · apply (AppPy.create_message_tail_keeps _ _ _ _).2.2
      simp [St.emit]
  · intro htr
    unfold FuncApp.create_message
    dsimp only
    simp only [hinv, Bool.false_eq_true, if_false, hfile, htr, if_true,
      hthrF, hmsg]
    refine ⟨(FuncApp.run_openai_keeps v (some tidF) fuel _).1.trans ?_,
      (FuncApp.run_openai_keeps v (some tidF) fuel _).2.1 _ ?_⟩
    · rfl
    · simp [St.emit]
  · intro htr htrace
    unfold FuncApp.create_message
    dsimp only
    simp only [hinv, Bool.false_eq_true, if_false, hfile, htr, hmsg]
    constructor
    · intro t2 ms
      apply (FuncApp.run_openai_keeps v s.envThreadId fuel _).2.2
      simp [St.emit, htrace]
    · apply (FuncApp.run_openai_keeps v s.envThreadId fuel _).2.1
      simp [St.emit]

/-- Witness for C5 in both revisions: an initial request stores the fresh
thread id; a follow-up request appends the update to the stored thread
without creating one. -/
theorem C5_theorem_witness :
    (AppPy.create_message dataInitial vOk St.init).snd.envThreadId =
        some "thread_1" ∧
      SdkOp.messageCreate (some "thread_0") "user" (.str "more") ∈
        (AppPy.create_message dataUpd vOk stWithKey).snd.trace ∧
      (FuncApp.create_message dataInitial vOk 3 St.init).snd.envThreadId =
        some "thread_1" ∧
      SdkOp.messageCreate (some "thread_0") "user" (.str "more") ∈
        (FuncApp.create_message dataUpd vOk 3 stWithKey).snd.trace :=
  ⟨((C5_theorem dataInitial vOk St.init "thread_1" "thread_1" "file_1" 3
      rfl rfl rfl rfl (fun _ _ _ => rfl)).1 rfl).1,
    ((C5_theorem dataUpd vOk stWithKey "thread_1" "thread_1" "file_1" 3
      rfl rfl rfl rfl (fun _ _ _ => rfl)).2.1 rfl rfl).2,
    ((C5_theorem dataInitial vOk St.init "thread_1" "thread_1" "file_1" 3
      rfl rfl rfl rfl (fun _ _ _ => rfl)).2.2.1 rfl).1,
    ((C5_theorem dataUpd vOk stWithKey "thread_1" "thread_1" "file_1" 3
      rfl rfl rfl rfl (fun _ _ _ => rfl)).2.2.2 rfl rfl).2⟩

/-- An operation respects the append-only discipline on vendor threads:
it is not a thread deletion, message deletion or message edit, and any
message it appends (including thread-creation seeds) is user-authored. -/
def opThreadSafe : SdkOp → Bool
  | .threadDelete _ => false
  | .messageDelete _ _ => false
  | .messageUpdate _ _ => false
  | .messageCreate _ role _ => role == "user"
  | .threadCreate _ ms => ms.all (fun rc => rc.fst == "user")
  | _ => true

/-- The shared handler tail only appends thread-safe operations. -/
theorem AppPy.create_message_tail_all (th : Option String) (ak : JsonVal)
    (v : Vendor) (s2 : St) (h : s2.trace.all opThreadSafe = true) :
    (AppPy.create_message_tail th ak v s2).snd.trace.all opThreadSafe = true := by
  rcases AppPy.create_message_tail_cases th ak v s2 with hc | ⟨raw, hc⟩ <;>
    rw [hc] <;> simp [St.emit, List.all_append, h, opThreadSafe]

/-- The create_message body only appends thread-safe operations. -/
theorem AppPy.create_message_body_all (d : Req) (v : Vendor) (s : St)
    (h : s.trace.all opThreadSafe = true) :
    (AppPy.create_message_body d v s).snd.trace.all opThreadSafe = true := by
  unfold AppPy.create_message_body
  dsimp only
  repeat' split
  all_goals first
    | exact h
    | (apply AppPy.create_message_tail_all
       simp [St.emit, List.all_append, h, opThreadSafe])
    | simp [St.emit, List.all_append, h, opThreadSafe]

/-- The update_with_selections handler only appends thread-safe
operations. -/
theorem AppPy.submit_recommendations_all (d : Req) (v : Vendor) (s : St)
    (h : s.trace.all opThreadSafe = true) :
    (AppPy.submit_recommendations d v s).snd.trace.all opThreadSafe = true := by
  unfold AppPy.submit_recommendations
  dsimp only
  repeat' split
  all_goals first
    | exact h
    | (apply AppPy.create_message_tail_all
       simp [St.emit, List.all_append, h, opThreadSafe])
    | simp [St.emit, List.all_append, h, opThreadSafe]

/-- The setup task body only appends thread-safe operations. -/
theorem AppPy.setup_assistant_task_body_all (vsid : Option String)
    (v : Vendor) (s : St) (h : s.trace.all opThreadSafe = true) :
    (AppPy.setup_assistant_task_body vsid v s).snd.trace.all opThreadSafe = true := by
  unfold AppPy.setup_assistant_task_body
  dsimp only
  repeat' split
  all_goals first
    | exact h
    | simp [St.emit, List.all_append, h, opThreadSafe]

/-- The run_openai_task body only appends thread-safe operations. -/
theorem AppPy.run_openai_task_body_all (tid : Option String) (aid : String)
    (v : Vendor) (s : St) (h : s.trace.all opThreadSafe = true) :
    (AppPy.run_openai_task_body tid aid v s).snd.trace.all opThreadSafe = true := by
  unfold AppPy.run_openai_task_body
  dsimp only
  repeat' split
  all_goals first
    | exact h
    | simp [St.emit, List.all_append, h, opThreadSafe]

/-- The end handler body only appends thread-safe operations (it deletes
an assistant, never a thread or a message). -/
theorem AppPy.end_handler_body_all (d : Req) (v : Vendor) (s : St)
    (h : s.trace.all opThreadSafe = true) :
    (AppPy.end_handler_body d v s).snd.trace.all opThreadSafe = true := by
  unfold AppPy.end_handler_body
  dsimp only
  repeat' split
  all_goals first
    | exact h
    | simp [St.emit, List.all_append, h, opThreadSafe]

/-- The function_app polling loop only appends thread-safe operations. -/
theorem FuncApp.run_openai_go_all (v : Vendor) (tid : Option String)
    (rid : String) :
    ∀ fuel i s, s.trace.all opThreadSafe = true →
      (FuncApp.run_openai_go v tid rid i fuel s).snd.trace.all opThreadSafe = true := by
  intro fuel
  induction fuel with
  | zero => intro i s h; exact h
  | succ n ih =>
    intro i s h
    unfold FuncApp.run_openai_go
    repeat' split
    all_goals first
      | exact h
      | (apply ih
         simp [St.emit, List.all_append, h, opThreadSafe])
      | simp [St.emit, List.all_append, h, opThreadSafe]

/-- run_openai only appends thread-safe operations. -/
theorem FuncApp.run_openai_all (v : Vendor) (tid : Option String)
    (fuel : Nat) (s : St) (h : s.trace.all opThreadSafe = true) :
    (FuncApp.run_openai v tid fuel s).snd.trace.all opThreadSafe = true := by
  unfold FuncApp.run_openai
  cases hc : v.runsCreate tid with
  | error e => simp only [hc]; exact h
  | ok rid =>
    simp only [hc]
    have h2 := FuncApp.run_openai_go_all v tid rid fuel 0
      (s.emit (SdkOp.runCreate tid rid))
      (by simp [St.emit, List.all_append, h, opThreadSafe])
    rcases hp : FuncApp.run_openai_go v tid rid 0 fuel
        (s.emit (SdkOp.runCreate tid rid)) with ⟨r, s2⟩
    rw [hp] at h2
    cases r <;> exact h2

/-- The function_app create_message handler only appends thread-safe
operations. -/
theorem FuncApp.create_message_all (d : Req) (v : Vendor) (fuel : Nat)
    (s : St) (h : s.trace.all opThreadSafe = true) :
    (FuncApp.create_message d v fuel s).snd.trace.all opThreadSafe = true := by
  unfold FuncApp.create_message
  dsimp only
  repeat' split
  all_goals first
    | exact h
    | (apply FuncApp.run_openai_all
       simp [St.emit, List.all_append, h, opThreadSafe, FuncApp.initialThreadMsg])
    | simp [St.emit, List.all_append, h, opThreadSafe, FuncApp.initialThreadMsg]

/-- The run_openai_task wrapper keeps the body's state. -/
theorem AppPy.run_openai_task_snd (tid : Option String) (aid : String)
    (v : Vendor) (s : St) :
    (AppPy.run_openai_task tid aid v s).snd =
      (AppPy.run_openai_task_body tid aid v s).snd := by
  rw [AppPy.run_openai_task_eq]
  rcases AppPy.run_openai_task_body tid aid v s with ⟨r, s2⟩
  cases r <;> rfl

/-- The end_handler wrapper keeps the body's state. -/
theorem AppPy.end_handler_snd (d : Req) (v : Vendor) (s : St) :
    (AppPy.end_handler d v s).snd = (AppPy.end_handler_body d v s).snd := by
  rw [AppPy.end_handler_eq]
  rcases AppPy.end_handler_body d v s with ⟨r, s2⟩
  cases r <;> rfl

/-- The setup_assistant_task wrapper keeps the body's state. -/
theorem AppPy.setup_assistant_task_snd (vsid : Option String) (v : Vendor)
    (s : St) :
    (AppPy.setup_assistant_task vsid v s).snd =
      (AppPy.setup_assistant_task_body vsid v s).snd := by
  rw [AppPy.setup_assistant_task_eq]
  rcases AppPy.setup_assistant_task_body vsid v s with ⟨r, s2⟩
  cases r <;> rfl

/-- Claim C6: every handler of the repository treats vendor threads as
append-only.  Whatever the request, the oracle outcomes and the starting
state, the recorded vendor operations never include a thread deletion, a
message deletion or a message edit, and every message append is
user-authored — across both create_message revisions, the update handler,
the setup and run tasks and the /api/end handler (which deletes an
assistant, not a thread). -/
theorem C6_theorem (d : Req) (v : Vendor) (s : St) (fuel : Nat)
    (vsid : Option String) (tid : Option String) (aid : String)
    (h : s.trace.all opThreadSafe = true) :
    (AppPy.create_message d v s).snd.trace.all opThreadSafe = true ∧
      (AppPy.submit_recommendations d v s).snd.trace.all opThreadSafe = true ∧
      (AppPy.setup_assistant_task vsid v s).snd.trace.all opThreadSafe = true ∧
      (AppPy.run_openai_task tid aid v s).snd.trace.all opThreadSafe = true ∧
      (AppPy.end_handler d v s).snd.trace.all opThreadSafe = true ∧
      (FuncApp.create_message d v fuel s).snd.trace.all opThreadSafe = true := by
  refine ⟨?_, ?_, ?_, ?_, ?_, ?_⟩
  · rw [AppPy.create_message_snd]
    exact AppPy.create_message_body_all d v s h
  · exact AppPy.submit_recommendations_all d v s h
  · rw [AppPy.setup_assistant_task_snd]
    exact AppPy.setup_assistant_task_body_all vsid v s h
  · rw [AppPy.run_openai_task_snd]
    exact AppPy.run_openai_task_body_all tid aid v s h
  · rw [AppPy.end_handler_snd]
    exact AppPy.end_handler_body_all d v s h
  · exact FuncApp.create_message_all d v fuel s h

/-- Witness for C6 at a concrete request, vendor and state. -/
theorem C6_theorem_witness :
    (AppPy.create_message dataInitial vOk St.init).snd.trace.all
        opThreadSafe = true ∧
      (AppPy.submit_recommendations dataUpd vOk stWithKey).snd.trace.all
        opThreadSafe = true ∧
      (AppPy.setup_assistant_task (some "vs_1") vOk St.init).snd.trace.all
        opThreadSafe = true ∧
      (AppPy.run_openai_task (some "thread_1") "asst_raw_1" vOk
        St.init).snd.trace.all opThreadSafe = true ∧
      (AppPy.end_handler dataEnd vOk stWithKey).snd.trace.all
        opThreadSafe = true ∧
      (FuncApp.create_message dataInitial vOk 3 St.init).snd.trace.all
        opThreadSafe = true := by
  have h1 := C6_theorem dataInitial vOk St.init 3 (some "vs_1")
    (some "thread_1") "asst_raw_1" rfl
  have h2 := C6_theorem dataUpd vOk stWithKey 3 (some "vs_1")
    (some "thread_1") "asst_raw_1" rfl
  have h3 := C6_theorem dataEnd vOk stWithKey 3 (some "vs_1")
    (some "thread_1") "asst_raw_1" rfl
  exact ⟨h1.1, h2.2.1, h1.2.2.1, h1.2.2.2.1, h3.2.2.2.2.1, h1.2.2.2.2.2⟩

/-- Full evaluation of the setup task on a configured vector store and a
successful assistant creation: one assistantCreate vendor call carrying
exactly the configured vector store id, the Redis binding of the hashed
key to the raw id, and the hashed-key result. -/
theorem AppPy.setup_state (v : Vendor) (s : St) (vs rawId : String)
    (hvs : vs ≠ "") (hca : v.assistantsCreate [vs] = .ok rawId) :
    AppPy.setup_assistant_task (some vs) v s =
      (.pyDict [("assistant_key", .str (sha256hex rawId)),
        ("status", .str "completed")],
       { s.emit (SdkOp.assistantCreate [vs]) with
           redis := redisSet s.redis ("assistant:" ++ sha256hex rawId) rawId }) := by
  rw [AppPy.setup_assistant_task_eq]
  unfold AppPy.setup_assistant_task_body
  dsimp only
  rw [if_neg hvs]
  simp only [hca]
  simp [St.emit]

/-- Full evaluation of the shared handler tail on a non-empty assistant
key that Redis resolves to a non-empty raw id: the run task is enqueued
with exactly that raw id and a 202 task-id response is produced. -/
theorem AppPy.create_message_tail_run (th : Option String)
    (key rawId taskId : String) (v : Vendor) (s2 : St)
    (hkey : key ≠ "")
    (hget : redisGet s2.redis ("assistant:" ++ key) = some rawId)
    (hraw : rawId ≠ "")
    (henq : v.applyAsync = .ok taskId) :
    AppPy.create_message_tail th (.str key) v s2 =
      (withCode (jsonify [.obj [("task_id", .str taskId)]] []) 202,
       s2.emit (SdkOp.taskEnqueue th rawId)) := by
  unfold AppPy.create_message_tail
  have htr : truthy (.str key) = true := by simp [truthy, hkey]
  simp only [htr, Bool.not_true, Bool.false_eq_true, if_false, pyStrOf, hget,
    henq]
  rw [if_neg hraw]

/-- Full evaluation of /api/end on a non-empty assistant key that Redis
resolves to a non-empty raw id: the assistant with exactly that raw id is
deleted, the binding is removed, and the response is a fixed success
message naming neither identifier. -/
theorem AppPy.end_handler_run (key rawId : String) (v : Vendor) (s2 : St)
    (hkey : key ≠ "")
    (hget : redisGet s2.redis ("assistant:" ++ key) = some rawId)
    (hraw : rawId ≠ "")
    (hdel : v.assistantsDelete rawId = .ok ()) :
    AppPy.end_handler [("assistant_key", .str key)] v s2 =
      (⟨200, .obj [("message", .str "Assistant deleted successfully")]⟩,
       { s2.emit (SdkOp.assistantDelete rawId) with
           sessAssistantKey := none,
           redis := redisDel s2.redis ("assistant:" ++ key) }) := by
  rw [AppPy.end_handler_eq]
  unfold AppPy.end_handler_body
  have hg : Req.get [("assistant_key", .str key)] "assistant_key" =
      .str key := by simp [Req.get, List.lookup]
  have htr : truthy (.str key) = true := by simp [truthy, hkey]
  simp only [hg, htr, Bool.not_true, Bool.false_eq_true, if_false, pyStrOf,
    hget, hdel]
  rw [if_neg hraw]
  simp [St.emit, withCode, jsonify, Except.map]

/-- Claim C7: the setup task never uploads documents itself.  When the
vector store id is unset (or empty) it returns the configuration-error
dict while performing no vendor call and leaving the state untouched;
otherwise its only vendor call creates the assistant configured with
exactly that pre-existing vector store id, and a creation exception also
uploads nothing. -/
theorem C7_theorem (v : Vendor) (s : St) :
    AppPy.setup_assistant_task none v s = (AppPy.vectorStoreMissing, s) ∧
      AppPy.setup_assistant_task (some "") v s =
        (AppPy.vectorStoreMissing, s) ∧
      (∀ vs aid, vs ≠ "" → v.assistantsCreate [vs] = .ok aid →
        (AppPy.setup_assistant_task (some vs) v s).snd.trace =
            s.trace ++ [SdkOp.assistantCreate [vs]] ∧
          (AppPy.setup_assistant_task (some vs) v s).fst =
            .pyDict [("assistant_key", .str (sha256hex aid)),
              ("status", .str "completed")]) ∧
      (∀ vs e, vs ≠ "" → v.assistantsCreate [vs] = .error e →
        AppPy.setup_assistant_task (some vs) v s =
          (.pyDict [("error", .str e)], s)) := by
  refine ⟨?_, ?_, ?_, ?_⟩
  · rw [AppPy.setup_assistant_task_eq]; rfl
  · rw [AppPy.setup_assistant_task_eq]; rfl
  · intro vs aid hvs hca
    rw [AppPy.setup_state v s vs aid hvs hca]
    exact ⟨rfl, rfl⟩
  · intro vs e hvs hca
    rw [AppPy.setup_assistant_task_eq]
    unfold AppPy.setup_assistant_task_body
    dsimp only
    rw [if_neg hvs]
    simp only [hca]

/-- Witness for C7: unset id refuses without vendor calls; id "vs_1"
creates the assistant against exactly that store. -/
theorem C7_theorem_witness :
    AppPy.setup_assistant_task none vOk St.init =
        (AppPy.vectorStoreMissing, St.init) ∧
      (AppPy.setup_assistant_task (some "vs_1") vOk St.init).snd.trace =
        [SdkOp.assistantCreate ["vs_1"]] ∧
      (AppPy.setup_assistant_task (some "vs_1") vOk St.init).fst =
        .pyDict [("assistant_key", .str (sha256hex "asst_raw_1")),
          ("status", .str "completed")] := by
  have h := C7_theorem vOk St.init
  have h3 := h.2.2.1 "vs_1" "asst_raw_1" (by decide) rfl
  exact ⟨h.1, by simpa using h3.1, h3.2⟩

/-- Claim C8: the assistant key returned by the setup task is the SHA-256
hex digest of the raw vendor assistant id; Redis maps "assistant:" + key
back to the raw id; presenting that key to /api/end or /api/create_message
recovers exactly the raw id (deleting it, resp. enqueueing the run against
it); and the HTTP-facing results are fixed shapes carrying only the hashed
key, a canned message, or the broker task id — never the raw id itself. -/
theorem C8_theorem (v : Vendor) (s : St) (vs rawId taskId : String)
    (hvs : vs ≠ "") (hca : v.assistantsCreate [vs] = .ok rawId)
    (hkey : sha256hex rawId ≠ "") (hraw : rawId ≠ "")
    (hdel : v.assistantsDelete rawId = .ok ())
    (hmsg : ∀ t r c, v.messagesCreate t r c = .ok ())
    (henq : v.applyAsync = .ok taskId) :
    (AppPy.setup_assistant_task (some vs) v s).fst =
        .pyDict [("assistant_key", .str (sha256hex rawId)),
          ("status", .str "completed")] ∧
      redisGet (AppPy.setup_assistant_task (some vs) v s).snd.redis
        ("assistant:" ++ sha256hex rawId) = some rawId ∧
      (AppPy.end_handler [("assistant_key", .str (sha256hex rawId))] v
        (AppPy.setup_assistant_task (some vs) v s).snd).fst =
          ⟨200, .obj [("message", .str "Assistant deleted successfully")]⟩ ∧
      SdkOp.assistantDelete rawId ∈
        (AppPy.end_handler [("assistant_key", .str (sha256hex rawId))] v
          (AppPy.setup_assistant_task (some vs) v s).snd).snd.trace ∧
      (AppPy.create_message [("update", .str "more"),
          ("assistant_key", .str (sha256hex rawId))] v
        (AppPy.setup_assistant_task (some vs) v s).snd).fst =
          ⟨202, .obj [("task_id", .str taskId)]⟩ ∧
      SdkOp.taskEnqueue (pyOrStr s.envThreadId s.sessThreadId) rawId ∈
        (AppPy.create_message [("update", .str "more"),
            ("assistant_key", .str (sha256hex rawId))] v
          (AppPy.setup_assistant_task (some vs) v s).snd).snd.trace := by
  have hsetup := AppPy.setup_state v s vs rawId hvs hca
  rw [hsetup]
  have hget1 : redisGet
      ({ s.emit (SdkOp.assistantCreate [vs]) with
          redis := redisSet s.redis ("assistant:" ++ sha256hex rawId) rawId } :
        St).redis ("assistant:" ++ sha256hex rawId) = some rawId := by
    simp [redisGet, redisSet, List.lookup]
  have hend := AppPy.end_handler_run (sha256hex rawId) rawId v _ hkey hget1
    hraw hdel
  have hbody : AppPy.create_message_body [("update", .str "more"),
      ("assistant_key", .str (sha256hex rawId))] v
      ({ s.emit (SdkOp.assistantCreate [vs]) with
          redis := redisSet s.redis ("assistant:" ++ sha256hex rawId) rawId } :
        St) =
      (withCode (jsonify [.obj [("task_id", .str taskId)]] []) 202,
        (({ s.emit (SdkOp.assistantCreate [vs]) with
            redis := redisSet s.redis ("assistant:" ++ sha256hex rawId)
              rawId } : St).emit
          (SdkOp.messageCreate (pyOrStr s.envThreadId s.sessThreadId) "user"
            (.str "more"))).emit
          (SdkOp.taskEnqueue (pyOrStr s.envThreadId s.sessThreadId) rawId)) := by
    unfold AppPy.create_message_body
    dsimp only
    have hinv : inputsInvalid
        (Req.get [("update", .str "more"),
          ("assistant_key", .str (sha256hex rawId))] "initial_request")
        (Req.get [("update", .str "more"),
          ("assistant_key", .str (sha256hex rawId))] "patient_likes")
        (Req.get [("update", .str "more"),
          ("assistant_key", .str (sha256hex rawId))] "patient_dislikes")
        (Req.get [("update", .str "more"),
          ("assistant_key", .str (sha256hex rawId))] "patient_restrictions")
        (.str "more") = false := by
      simp [Req.get, List.lookup, inputsInvalid, truthy]
    have hini : truthy (Req.get [("update", .str "more"),
        ("assistant_key", .str (sha256hex rawId))] "initial_request") =
        false := by
      simp [Req.get, List.lookup, truthy]
    have hup : Req.get [("update", .str "more"),
        ("assistant_key", .str (sha256hex rawId))] "update" = .str "more" := by
      simp [Req.get, List.lookup]
    have hak : Req.get [("update", .str "more"),
        ("assistant_key", .str (sha256hex rawId))] "assistant_key" =
        .str (sha256hex rawId) := by
      simp [Req.get, List.lookup]
    simp only [hup, hak]
    simp only [hinv, hini, Bool.false_eq_true, if_false, hmsg]
    rw [AppPy.create_message_tail_run _ (sha256hex rawId) rawId taskId v _
      hkey (by simpa [St.emit] using hget1) hraw henq]
    simp [St.emit]
  refine ⟨rfl, hget1, ?_, ?_, ?_, ?_⟩
  · rw [hend]
  · rw [hend]
    simp [St.emit]
  · rw [AppPy.create_message_eq, hbody]
    simp [withCode, jsonify, Except.map]
  · rw [AppPy.create_message_snd, hbody]
    simp [St.emit]

set_option maxRecDepth 20000 in
/-- Witness for C8 at a concrete assistant id. -/
theorem C8_theorem_witness :
    (AppPy.setup_assistant_task (some "vs_1") vOk St.init).fst =
        .pyDict [("assistant_key", .str (sha256hex "asst_raw_1")),
          ("status", .str "completed")] ∧
      redisGet (AppPy.setup_assistant_task (some "vs_1") vOk
          St.init).snd.redis ("assistant:" ++ sha256hex "asst_raw_1") =
        some "asst_raw_1" ∧
      SdkOp.assistantDelete "asst_raw_1" ∈
        (AppPy.end_handler [("assistant_key", .str (sha256hex "asst_raw_1"))]
          vOk (AppPy.setup_assistant_task (some "vs_1") vOk
            St.init).snd).snd.trace :=
  have h := C8_theorem vOk St.init "vs_1" "asst_raw_1" "task_1" (by decide)
    rfl (by decide) (by decide) rfl (fun _ _ _ => rfl) rfl
  ⟨h.1, h.2.1, h.2.2.2.1⟩

/-- An accepted initial create_message request stores the freshly created
thread id in the process environment and the session, and records the
thread creation. -/
theorem AppPy.create_message_initial_state (d : Req) (v : Vendor) (s : St)
    (tid : String)
    (hinv : inputsInvalid (d.get "initial_request") (d.get "patient_likes")
      (d.get "patient_dislikes") (d.get "patient_restrictions")
      (d.get "update") = false)
    (htr : truthy (d.get "initial_request") = true)
    (hthr : v.threadsCreate [] = .ok tid)
    (hmsg : ∀ t r c, v.messagesCreate t r c = .ok ()) :
    (AppPy.create_message d v s).snd.envThreadId = some tid ∧
      (AppPy.create_message d v s).snd.sessThreadId = some tid := by
  rw [AppPy.create_message_snd]
  unfold AppPy.create_message_body
  simp only [hinv, Bool.false_eq_true, if_false, htr, if_true, hthr, hmsg]
  exact ⟨(AppPy.create_message_tail_keeps _ _ _ _).1.trans rfl,
    (AppPy.create_message_tail_keeps _ _ _ _).2.1.trans rfl⟩

/-- An accepted non-initial create_message request appends the update
message to the thread id read from the environment variable first and the
session second. -/
theorem AppPy.create_message_followup_mem (d : Req) (v : Vendor) (s : St)
    (hinv : inputsInvalid (d.get "initial_request") (d.get "patient_likes")
      (d.get "patient_dislikes") (d.get "patient_restrictions")
      (d.get "update") = false)
    (htr : truthy (d.get "initial_request") = false)
    (hmsg : ∀ t r c, v.messagesCreate t r c = .ok ()) :
    SdkOp.messageCreate (pyOrStr s.envThreadId s.sessThreadId) "user"
      (d.get "update") ∈ (AppPy.create_message d v s).snd.trace := by
  rw [AppPy.create_message_snd]
  unfold AppPy.create_message_body
  simp only [hinv, Bool.false_eq_true, if_false, htr, hmsg]
  apply (AppPy.create_message_tail_keeps _ _ _ _).2.2
  simp [St.emit]

/-- update_with_selections appends its update message to the thread id
read from the environment variable first and the session second. -/
theorem AppPy.submit_recommendations_mem (d : Req) (v : Vendor) (s2 : St)
    (henf : strFalsy (pyOrStr s2.envThreadId s2.sessThreadId) = false)
    (hmsg : ∀ t r c, v.messagesCreate t r c = .ok ()) :
    SdkOp.messageCreate (pyOrStr s2.envThreadId s2.sessThreadId) "user"
      (.str ("Updates from user: " ++ pyStrOf (d.get "update"))) ∈
      (AppPy.submit_recommendations d v s2).snd.trace := by
  unfold AppPy.submit_recommendations
  dsimp only
  simp only [henf, Bool.false_eq_true, if_false, hmsg]
  apply (AppPy.create_message_tail_keeps _ _ _ _).2.2
  simp [St.emit]

/-- Claim C9: every accepted initial request overwrites the process-wide
THREAD_ID environment variable with its fresh thread id, and every
follow-up (create_message without initial_request, and
update_with_selections) reads that variable before the caller's own
session value.  Hence after caller B's initial request, caller A's
follow-up — whose session still holds A's own thread — appends its message
to B's thread, not to A's. -/
theorem C9_theorem (dB dA : Req) (v : Vendor) (s : St) (tidB tA : String)
    (hinvB : inputsInvalid (dB.get "initial_request") (dB.get "patient_likes")
      (dB.get "patient_dislikes") (dB.get "patient_restrictions")
      (dB.get "update") = false)
    (hinitB : truthy (dB.get "initial_request") = true)
    (hthr : v.threadsCreate [] = .ok tidB)
    (hmsg : ∀ t r c, v.messagesCreate t r c = .ok ())
    (htidB : tidB ≠ "")
    (hinvA : inputsInvalid (dA.get "initial_request") (dA.get "patient_likes")
      (dA.get "patient_dislikes") (dA.get "patient_restrictions")
      (dA.get "update") = false)
    (hinitA : truthy (dA.get "initial_request") = false)
    (hne : tidB ≠ tA) :
    (AppPy.create_message dB v s).snd.envThreadId = some tidB ∧
      SdkOp.messageCreate (some tidB) "user" (dA.get "update") ∈
        (AppPy.create_message dA v
          { (AppPy.create_message dB v s).snd with
              sessThreadId := some tA }).snd.trace ∧
      some tidB ≠ some tA ∧
      (∀ s2 : St, s2.envThreadId = some tidB →
        SdkOp.messageCreate (some tidB) "user"
          (.str ("Updates from user: " ++ pyStrOf (dA.get "update"))) ∈
          (AppPy.submit_recommendations dA v s2).snd.trace) := by
  have hstateB := AppPy.create_message_initial_state dB v s tidB hinvB hinitB
    hthr hmsg
  refine ⟨hstateB.1, ?_, by simpa using hne, ?_⟩
  · have hmem := AppPy.create_message_followup_mem dA v
      { (AppPy.create_message dB v s).snd with sessThreadId := some tA }
      hinvA hinitA hmsg
    have hor : pyOrStr ({ (AppPy.create_message dB v s).snd with
        sessThreadId := some tA } : St).envThreadId
        ({ (AppPy.create_message dB v s).snd with
          sessThreadId := some tA } : St).sessThreadId = some tidB := by
      have he : ({ (AppPy.create_message dB v s).snd with
          sessThreadId := some tA } : St).envThreadId = some tidB := hstateB.1
      rw [he]
      simp [pyOrStr, htidB]
    rw [hor] at hmem
    exact hmem
  · intro s2 henv
    have hor : pyOrStr s2.envThreadId s2.sessThreadId = some tidB := by
      rw [henv]; simp [pyOrStr, htidB]
    have henf : strFalsy (pyOrStr s2.envThreadId s2.sessThreadId) = false := by
      rw [hor]; simp [strFalsy, htidB]
    have hmem := AppPy.submit_recommendations_mem dA v s2 henf hmsg
    rw [hor] at hmem
    exact hmem

/-- Witness for C9: caller B's initial request stores thread_1 in the
environment; caller A's follow-up, whose session holds thread_A, appends
to thread_1. -/
theorem C9_theorem_witness :
    (AppPy.create_message dataInitial vOk St.init).snd.envThreadId =
        some "thread_1" ∧
      SdkOp.messageCreate (some "thread_1") "user" (.str "more") ∈
        (AppPy.create_message dataUpd vOk
          { (AppPy.create_message dataInitial vOk St.init).snd with
              sessThreadId := some "thread_A" }).snd.trace ∧
      some "thread_1" ≠ some "thread_A" ∧
      (∀ s2 : St, s2.envThreadId = some "thread_1" →
        SdkOp.messageCreate (some "thread_1") "user"
          (.str ("Updates from user: " ++ pyStrOf (JsonVal.str "more"))) ∈
          (AppPy.submit_recommendations dataUpd vOk s2).snd.trace) :=
  C9_theorem dataInitial dataUpd vOk St.init "thread_1" "thread_A" rfl rfl
    rfl (fun _ _ _ => rfl) (by decide) rfl rfl (by decide)

/-- Claim C10: when the polled run ends with any status other than
"completed" and no exception is raised, run_openai_task falls off the end
of the Python function and the stored task result is None; a subsequent
/api/get_message for that task id then reports state SUCCESS with a null
result and no error field. -/
theorem C10_theorem (tid : Option String) (aid : String) (v : Vendor)
    (s : St) (status : String) (d : Req) (info : String)
    (hpoll : v.runsCreateAndPoll tid aid = .ok status)
    (hstat : status ≠ "completed")
    (htask : truthy (d.get "task_id") = true) :
    (AppPy.run_openai_task tid aid v s).fst = .pyNone ∧
      AppPy.get_message d "SUCCESS" .pyNone info =
        ⟨200, .obj [("state", .str "SUCCESS"), ("result", .null)]⟩ := by
  constructor
  · rw [AppPy.run_openai_task_eq]
    simp only [AppPy.run_openai_task_body, hpoll]
    rw [if_neg hstat]
  · unfold AppPy.get_message
    simp [htask, pyToJson]

/-- Witness for C10: a run ending "failed" yields result None and a
SUCCESS/null get_message response. -/
theorem C10_theorem_witness :
    (AppPy.run_openai_task (some "thread_1") "asst_raw_1" vFailedRun
        St.init).fst = .pyNone ∧
      AppPy.get_message [("task_id", .str "t1")] "SUCCESS" .pyNone "" =
        ⟨200, .obj [("state", .str "SUCCESS"), ("result", .null)]⟩ :=
  C10_theorem (some "thread_1") "asst_raw_1" vFailedRun St.init "failed"
    [("task_id", .str "t1")] "" rfl (by decide) rfl
